import Mathlib

set_option maxRecDepth 8192

/- Shallow embedding of src/src/server.ts: a single-endpoint YouTube download
   backend with a five-strategy fallback chain, an error/note marker file
   convention, and a stateless status endpoint that rescans the download
   directory.  Pure data (strings, lists of file names) stands in for the
   filesystem; each strategy takes a record of the observable outcomes of its
   transport (exit code, stream events, resulting file size) and computes the
   boolean it would resolve with. -/

/- Character classes used by the JavaScript regular expressions in server.ts. -/

/-- ECMAScript whitespace class, matched by a backslash-s character class. -/
def jsWhitespace (c : Char) : Bool :=
  decide (c.toNat = 32) || decide (9 ≤ c.toNat ∧ c.toNat ≤ 13) ||
  decide (c.toNat = 0xA0) || decide (c.toNat = 0x1680) ||
  decide (0x2000 ≤ c.toNat ∧ c.toNat ≤ 0x200A) ||
  decide (c.toNat = 0x2028) || decide (c.toNat = 0x2029) ||
  decide (c.toNat = 0x202F) || decide (c.toNat = 0x205F) ||
  decide (c.toNat = 0x3000) || decide (c.toNat = 0xFEFF)

/-- ECMAScript word-character class (ASCII letters, digits, underscore). -/
def wordChar (c : Char) : Bool :=
  decide (65 ≤ c.toNat ∧ c.toNat ≤ 90) || decide (97 ≤ c.toNat ∧ c.toNat ≤ 122) ||
  decide (48 ≤ c.toNat ∧ c.toNat ≤ 57) || decide (c.toNat = 95)

/-- ECMAScript line terminators, the characters a dot does not match. -/
def lineTerm (c : Char) : Bool :=
  decide (c.toNat = 10) || decide (c.toNat = 13) ||
  decide (c.toNat = 0x2028) || decide (c.toNat = 0x2029)

/-- Character class of the video-id capture group in extractVideoId:
everything except a double quote, ampersand, question mark, slash and
whitespace. -/
def idChar (c : Char) : Bool :=
  !(decide (c.toNat = 34) || decide (c.toNat = 38) || decide (c.toNat = 63) ||
    decide (c.toNat = 47) || jsWhitespace c)

/- FilenameSanitizer: server.ts lines 614-618, the safeTitle computation.
   First replace of server.ts deletes every character that is neither a word
   character nor whitespace; second replace turns each maximal whitespace run
   into a single underscore. -/

/-- First replace of the sanitizer: keep only word characters and whitespace. -/
def stripSpecial (l : List Char) : List Char :=
  l.filter (fun c => wordChar c || jsWhitespace c)

mutual

/-- Second replace of the sanitizer: each maximal whitespace run becomes one
underscore. -/
def collapseWs : List Char → List Char
  | [] => []
  | c :: rest => if jsWhitespace c then '_' :: skipWs rest else c :: collapseWs rest

/-- Helper of collapseWs: consume the remainder of a whitespace run. -/
def skipWs : List Char → List Char
  | [] => []
  | c :: rest => if jsWhitespace c then skipWs rest else c :: collapseWs rest

end

/-- The safeTitle computation of server.ts applied to a video title. -/
def sanitizeTitle (title : String) : String :=
  ⟨collapseWs (stripSpecial title.data)⟩

/-- Sanitized filename stem: sanitized title with the video id appended. -/
def safeStem (title vid : String) : String :=
  sanitizeTitle title ++ "-" ++ vid

/-- Output file name built by the download handler. -/
def outputFileName (title vid : String) : String :=
  safeStem title vid ++ ".mp4"

/- String helpers mirroring the JavaScript string operations the server uses. -/

/-- Mirrors JavaScript String.startsWith on our string model. -/
def startsWithStr (s pre : String) : Bool := pre.data.isPrefixOf s.data

/-- Mirrors JavaScript String.endsWith on our string model. -/
def endsWithStr (s suf : String) : Bool := suf.data.isSuffixOf s.data

/-- Mirrors JavaScript String.replace with a plain string pattern: only the
first occurrence is replaced. -/
def listReplaceFirst (pat rep : List Char) : List Char → List Char
  | [] => []
  | c :: rest =>
    if pat.isPrefixOf (c :: rest) then rep ++ (c :: rest).drop pat.length
    else c :: listReplaceFirst pat rep rest

/-- String-level wrapper of listReplaceFirst. -/
def replaceFirst (s pat rep : String) : String :=
  ⟨listReplaceFirst pat.data rep.data s.data⟩

/-- Download directory path; in server.ts this is the downloads folder next to
the compiled sources. -/
def DOWNLOAD_DIR : String := "downloads"

/-- Mirrors Node path.basename with an extension argument: the last path
segment, with the extension removed when the segment ends with it and is
longer than it. -/
def basenameDrop (p ext : String) : String :=
  let b := (p.data.reverse.takeWhile (fun c => c != '/')).reverse
  if ext.data.isSuffixOf b ∧ b ≠ ext.data then ⟨b.take (b.length - ext.data.length)⟩
  else ⟨b⟩

/- StatusReporter: server.ts lines 770-830, the status endpoint. -/

/-- File name classification of the status endpoint: an ERROR- name. -/
def isErrorFile (f : String) : Bool := startsWithStr f "ERROR-"

/-- File name classification of the status endpoint: a NOTE- name. -/
def isNoteFile (f : String) : Bool := startsWithStr f "NOTE-"

/-- Predicate counted by successCount in the status endpoint. -/
def isSuccessFile (f : String) : Bool :=
  !isErrorFile f && !isNoteFile f && (endsWithStr f ".mp4" || endsWithStr f ".mp3")

/-- Predicate counted by audioOnlyCount in the status endpoint. -/
def isAudioOnlyFile (f : String) : Bool := isNoteFile f || endsWithStr f ".mp3"

/-- Summary counters of the status endpoint. -/
structure StatusStats where
  successCount : Nat
  errorCount : Nat
  audioOnlyCount : Nat
deriving DecidableEq, Repr

/-- Stats computed by the status endpoint from the directory listing. -/
def statusStats (files : List String) : StatusStats :=
  ⟨files.countP isSuccessFile, files.countP isErrorFile, files.countP isAudioOnlyFile⟩

/-- Total number of files reported by the status endpoint. -/
def totalFiles (files : List String) : Nat := files.length

/- AcquisitionStrategy 1: downloadWithYtDlpCookies, server.ts lines 162-225. -/

/-- Observable outcome of the yt-dlp subprocess: its exit code (none when
killed by a signal) and the state of the output file afterwards. -/
structure YtDlpOutcome where
  exitCode : Option Int
  outExists : Bool
  outSize : Nat
deriving DecidableEq, Repr

/-- Strategy 1.  Returns the resolved boolean paired with whether a subprocess
was spawned.  Without a cookies file it resolves false at once, before any
spawn; otherwise success requires exit code 0, the output file existing and a
non-zero size. -/
def downloadWithYtDlpCookies (cookiesFileExists : Bool) (o : YtDlpOutcome) :
    Bool × Bool :=
  if !cookiesFileExists then (false, false)
  else (decide (o.exitCode = some 0) && o.outExists && decide (0 < o.outSize), true)

/- AcquisitionStrategy 2: downloadWithEnhancedYtdl, server.ts lines 230-301. -/

/-- Observable outcome of the ytdl-core stream of strategy 2: whether the
stream raised an error (or the setup threw), and the state of the output file
when the end event fired. -/
structure YtdlStreamOutcome where
  errored : Bool
  outExists : Bool
  outSize : Nat
deriving DecidableEq, Repr

/-- Strategy 2.  An error resolves false; on the end event the code checks
only that the output file exists, with no size check. -/
def downloadWithEnhancedYtdl (o : YtdlStreamOutcome) : Bool :=
  if o.errored then false else o.outExists

/- AcquisitionStrategy 3: downloadWithProxyFetch, server.ts lines 306-411. -/

/-- Observable outcome of strategy 3: whether getInfo succeeded, whether
chooseFormat produced a direct url, whether the file writer errored, and the
number of bytes streamed into the temp file. -/
structure ProxyFetchOutcome where
  infoOk : Bool
  formatOk : Bool
  writerErrored : Bool
  streamedSize : Nat
deriving DecidableEq, Repr

/-- Strategy 3.  Failures of info, format selection or the writer resolve
false; on the writer finish event the temp file is renamed into place and the
strategy resolves true with no size or existence check. -/
def downloadWithProxyFetch (o : ProxyFetchOutcome) : Bool :=
  if !o.infoOk then false
  else if !o.formatOk then false
  else if o.writerErrored then false
  else true

/- AcquisitionStrategy 4: downloadWithEmbedURL, server.ts lines 416-496. -/

/-- Observable outcome of strategy 4: whether the embed page fetch succeeded,
whether the write stream errored, and the output file size at finish. -/
structure EmbedOutcome where
  embedFetchOk : Bool
  writerErrored : Bool
  outSize : Nat
deriving DecidableEq, Repr

/-- Strategy 4.  On the write-stream finish event the code resolves true only
when the output file size is non-zero. -/
def downloadWithEmbedURL (o : EmbedOutcome) : Bool :=
  if !o.embedFetchOk then false
  else if o.writerErrored then false
  else decide (0 < o.outSize)

/- AcquisitionStrategy 5: downloadAsAudioOnly, server.ts lines 501-575. -/

/-- Audio sibling path of strategy 5: the first occurrence of .mp4 in the
output path replaced by .mp3, as JavaScript replace does. -/
def audioPathOf (outputPath : String) : String :=
  replaceFirst outputPath ".mp4" ".mp3"

/-- Note marker path of strategy 5: NOTE- followed by the basename of the
output path without its .mp4 extension, as a .txt file in the download
directory. -/
def notePathOf (outputPath : String) : String :=
  DOWNLOAD_DIR ++ "/NOTE-" ++ basenameDrop outputPath ".mp4" ++ ".txt"

/-- Observable outcome of the audio stream of strategy 5. -/
structure AudioOutcome where
  writerErrored : Bool
  audioExists : Bool
  audioSize : Nat
deriving DecidableEq, Repr

/-- Strategy 5.  The audio stream writes to the audio sibling path; on finish
the code resolves true only when that file exists with non-zero size, and in
that case also writes the note marker file.  The result is the resolved
boolean paired with the list of paths the strategy wrote. -/
def downloadAsAudioOnly (outputPath : String) (o : AudioOutcome) :
    Bool × List String :=
  let aPath := audioPathOf outputPath
  if o.writerErrored then (false, [aPath])
  else if !o.audioExists then (false, [aPath])
  else if !(decide (0 < o.audioSize)) then (false, [aPath])
  else (true, [aPath, notePathOf outputPath])

/- FallbackOrchestrator: the background block of the download handler,
   server.ts lines 671-760. -/

/-- Result of strategy k among the five booleans, for stating the
short-circuit property. -/
def stratResult (b1 b2 b3 b4 b5 : Bool) : Nat → Bool
  | 1 => b1
  | 2 => b2
  | 3 => b3
  | 4 => b4
  | 5 => b5
  | _ => false

/-- The fallback chain over the five strategy results.  Strategy 1 runs only
when both the cookies file and yt-dlp are available; every later strategy runs
exactly when no earlier one succeeded.  Returns the final success flag and the
list of strategies invoked, in invocation order. -/
def runChain (hasCookies hasYtDlp b1 b2 b3 b4 b5 : Bool) : Bool × List Nat :=
  let r1 : Bool × List Nat := if hasCookies && hasYtDlp then (b1, [1]) else (false, [])
  let r2 := if !r1.1 then (b2, r1.2 ++ [2]) else r1
  let r3 := if !r2.1 then (b3, r2.2 ++ [3]) else r2
  let r4 := if !r3.1 then (b4, r3.2 ++ [4]) else r3
  let r5 := if !r4.1 then (b5, r4.2 ++ [5]) else r4
  r5

/-- Transport outcomes of all five strategies for one orchestrator run. -/
structure Outcomes where
  o1 : YtDlpOutcome
  o2 : YtdlStreamOutcome
  o3 : ProxyFetchOutcome
  o4 : EmbedOutcome
  o5 : AudioOutcome
deriving DecidableEq, Repr

/-- The orchestrator run with the concrete strategies plugged in. -/
def runOrchestrator (hasCookies hasYtDlp : Bool) (outputPath : String)
    (os : Outcomes) : Bool × List Nat :=
  runChain hasCookies hasYtDlp
    (downloadWithYtDlpCookies hasCookies os.o1).1
    (downloadWithEnhancedYtdl os.o2)
    (downloadWithProxyFetch os.o3)
    (downloadWithEmbedURL os.o4)
    (downloadAsAudioOnly outputPath os.o5).1

/-- Error marker file name written on chain exhaustion. -/
def errorFileName (st vid : String) : String :=
  "ERROR-" ++ st ++ "-" ++ vid ++ ".txt"

/-- Content of the error marker file, following the template literal of
server.ts lines 717-731; the timestamp is a parameter. -/
def errorContent (title channel vid url ts : String) : String :=
  "Download failed: All methods were unsuccessful. \nYouTube may be blocking server access.\n\nVideo Information:\n- Title: " ++
  title ++ "\n- Channel: " ++ channel ++ "\n- Video ID: " ++ vid ++
  "\n- URL: " ++ url ++ "\n- Attempted on: " ++ ts ++
  "\n\nThings to try:\n1. Export fresh cookies from a different browser\n2. Use a VPN or different network\n3. Download the video locally and upload it to the server\n4. Check for alternative sources like British Pathé\u0027s website"

/-- Fixed remediation suggestions block inside the error marker content. -/
def errorSuggestions : String :=
  "Things to try:\n1. Export fresh cookies from a different browser\n2. Use a VPN or different network\n3. Download the video locally and upload it to the server\n4. Check for alternative sources like British Pathé\u0027s website"

/-- Files written by the background block after the chain finishes: exactly
the error marker when the final success flag is false, nothing otherwise. -/
def errorMarkerWrites (hasCookies hasYtDlp : Bool)
    (outputPath st vid url title channel ts : String) (os : Outcomes) :
    List (String × String) :=
  if (runOrchestrator hasCookies hasYtDlp outputPath os).1 then []
  else [(DOWNLOAD_DIR ++ "/" ++ errorFileName st vid, errorContent title channel vid url ts)]

/- VideoIdentifier: extractVideoId, server.ts lines 120-124.  The regular
   expression, with the case-insensitive flag, is

     (?:youtube\.com\/(?:[^\/]+\/.+\/|(?:v|e(?:mbed)?)\/|.*[?&]v=)|youtu\.be\/)([^"&?\/\s]{11})

   matched with String.match, which yields the leftmost match, alternatives
   tried in order and greedy quantifiers backtracking from the longest
   candidate.  The embedding below implements exactly this search. -/

/-- Case-insensitive character comparison used for literal parts of the
pattern. -/
def charCI (p c : Char) : Bool := p.toLower == c.toLower

/-- Match a literal pattern case-insensitively at the head of the input,
returning the remainder on success. -/
def stripCI : List Char → List Char → Option (List Char)
  | [], l => some l
  | _ :: _, [] => none
  | p :: ps, c :: cs => if charCI p c then stripCI ps cs else none

/-- The capture group: exactly eleven characters of the id class. -/
def group11 (l : List Char) : Option (List Char) :=
  if ((l.take 11).length == 11) && (l.take 11).all idChar then some (l.take 11)
  else none

/-- First successful candidate in backtracking order. -/
def firstSome (f : Nat → Option (List Char)) : List Nat → Option (List Char)
  | [] => none
  | j :: js =>
    match f j with
    | some g => some g
    | none => firstSome f js

/-- A slash at offset j followed by the capture group. -/
def slashThenGroup (t : List Char) (j : Nat) : Option (List Char) :=
  if (t.drop j).head? = some '/' then group11 (t.drop (j + 1)) else none

/-- The tail of the first inner alternative: one or more dot-class characters,
then a slash, then the group, with the greedy quantifier backtracking from the
longest candidate. -/
def dotPlusSlashGroup (t : List Char) : Option (List Char) :=
  let L := (t.takeWhile (fun c => !lineTerm c)).length
  firstSome (slashThenGroup t) ((List.range L).reverse.map (fun j => j + 1))

/-- First inner alternative after youtube.com/ : one or more non-slash
characters, a slash, one or more dot-class characters, a slash, the group. -/
def tryPathForm (l : List Char) : Option (List Char) :=
  let run := l.takeWhile (fun c => c != '/')
  if run.isEmpty then none
  else if (l.drop run.length).head? = some '/' then
    dotPlusSlashGroup (l.drop (run.length + 1))
  else none

/-- Second inner alternative after youtube.com/ : a v, embed or e segment,
a slash, the group; alternatives in the order the pattern tries them. -/
def tryVEmbedForm (l : List Char) : Option (List Char) :=
  (stripCI "v/".data l).bind group11 <|>
  ((stripCI "embed/".data l).bind group11 <|> (stripCI "e/".data l).bind group11)

/-- A question mark or ampersand at offset j, then v and an equals sign, then
the group. -/
def qvEqThenGroup (t : List Char) (j : Nat) : Option (List Char) :=
  match (t.drop j).take 3 with
  | [c, v, e] =>
    if (c == '?' || c == '&') && charCI 'v' v && (e == '=') then
      group11 (t.drop (j + 3))
    else none
  | _ => none

/-- Third inner alternative after youtube.com/ : any dot-class characters,
then a question mark or ampersand, v, equals sign, the group; the greedy star
backtracks from the longest candidate. -/
def tryQueryForm (l : List Char) : Option (List Char) :=
  let L := (l.takeWhile (fun c => !lineTerm c)).length
  firstSome (qvEqThenGroup l) (List.range (L + 1)).reverse

/-- Attempt the whole pattern anchored at the head of the input. -/
def matchAt (l : List Char) : Option (List Char) :=
  (stripCI "youtube.com/".data l).bind
    (fun rest => tryPathForm rest <|> (tryVEmbedForm rest <|> tryQueryForm rest)) <|>
  (stripCI "youtu.be/".data l).bind group11

/-- Leftmost-match search of String.match: try the pattern at every start
position in order. -/
def scanChars : List Char → Option (List Char)
  | [] => none
  | c :: rest =>
    match matchAt (c :: rest) with
    | some g => some g
    | none => scanChars rest

/-- extractVideoId of server.ts: the capture group of the first match, or
none when the pattern does not match. -/
def extractVideoId (url : String) : Option String :=
  (scanChars url.data).map (fun l => String.mk l)

/- RequestHandler: the download-submit endpoint, server.ts lines 580-765. -/

/-- Video metadata as consumed from the external metadata client. -/
structure VideoMeta where
  title : String
  channel : String
  views : String
deriving DecidableEq, Repr

/-- Inputs of one download-submit request as the handler observes them. -/
structure RequestEnv where
  url : Option String
  apiKeyConfigured : Bool
  metadata : Option VideoMeta
  outputFileExists : Bool
  hasCookies : Bool
  hasYtDlp : Bool
deriving DecidableEq, Repr

/-- Response of the download-submit endpoint. -/
inductive DownloadResponse where
  | missingUrl : DownloadResponse
  | invalidUrl : DownloadResponse
  | apiKeyMissing : DownloadResponse
  | videoNotFound : DownloadResponse
  | alreadyDownloaded (vid title channel downloadUrl : String) : DownloadResponse
  | accepted (vid title channel downloadUrl : String)
      (usingCookies usingYtDlp : Bool) : DownloadResponse
deriving DecidableEq, Repr

/-- HTTP status code of each response. -/
def statusCode : DownloadResponse → Nat
  | .missingUrl => 400
  | .invalidUrl => 400
  | .apiKeyMissing => 500
  | .videoNotFound => 404
  | .alreadyDownloaded _ _ _ _ => 200
  | .accepted _ _ _ _ _ _ => 202

/-- Error field of the response body, when the response is an error. -/
def errorBody : DownloadResponse → Option String
  | .missingUrl => some "Video URL is required"
  | .invalidUrl => some "Invalid YouTube URL"
  | .apiKeyMissing => some "Server configuration error: API key missing"
  | .videoNotFound => some "Video not found or API key invalid"
  | _ => none

/-- Whether the response is the one sent just before the background chain is
started. -/
def startsBackground : DownloadResponse → Bool
  | .accepted _ _ _ _ _ _ => true
  | _ => false

/-- The download-submit handler up to the point where the response is sent.
Mirrors the guard order of server.ts: falsy url, unparseable url, missing API
key, failed metadata lookup, existing output file, accepted. -/
def handleDownload (e : RequestEnv) : DownloadResponse :=
  match e.url with
  | none => .missingUrl
  | some u =>
    if u = "" then .missingUrl
    else
      match extractVideoId u with
      | none => .invalidUrl
      | some vid =>
        if !e.apiKeyConfigured then .apiKeyMissing
        else
          match e.metadata with
          | none => .videoNotFound
          | some md =>
            let filename := outputFileName md.title vid
            if e.outputFileExists then
              .alreadyDownloaded vid md.title md.channel ("/downloads/" ++ filename)
            else
              .accepted vid md.title md.channel ("/downloads/" ++ filename)
                e.hasCookies e.hasYtDlp

/-- Response code table as the specification states it, for comparison with
the handler: 400 when the url is missing or unparseable, 500 when the
metadata credential is not configured, 404 when the metadata lookup returns
nothing, 200 when the output path already exists, 202 otherwise. -/
def specResponseCode (e : RequestEnv) : Nat :=
  match e.url with
  | none => 400
  | some u =>
    if u = "" ∨ extractVideoId u = none then 400
    else if e.apiKeyConfigured = false then 500
    else if e.metadata = none then 404
    else if e.outputFileExists then 200
    else 202

/- Helper lemmas about the option combinators of the pattern matcher. -/

/-- Case split for an orElse of options that produced a value. -/
theorem orElse_eq_some_cases {α : Type} {a b : Option α} {g : α}
    (h : (a <|> b) = some g) : a = some g ∨ b = some g := by
  cases a with
  | none => right; simpa using h
  | some x => left; simpa using h

/-- Whatever group11 returns has length eleven and only id-class
characters. -/
theorem group11_sound {l g : List Char} (h : group11 l = some g) :
    g.length = 11 ∧ g.all idChar = true := by
  unfold group11 at h
  split at h
  · rename_i hc
    cases h
    simp only [Bool.and_eq_true, beq_iff_eq] at hc
    exact ⟨hc.1, hc.2⟩
  · exact absurd h (by simp)

/-- Lift group11_sound through a bind. -/
theorem bind_group11_sound {o : Option (List Char)} {g : List Char}
    (h : o.bind group11 = some g) : g.length = 11 ∧ g.all idChar = true := by
  cases o with
  | none => simp at h
  | some l => exact group11_sound (by simpa using h)

/-- A successful backtracking search came from one of its candidates. -/
theorem firstSome_sound {f : Nat → Option (List Char)} {js : List Nat}
    {g : List Char} (h : firstSome f js = some g) : ∃ j, f j = some g := by
  induction js with
  | nil => simp [firstSome] at h
  | cons j js ih =>
    unfold firstSome at h
    cases hf : f j with
    | some x => rw [hf] at h; exact ⟨j, by rw [hf]; exact h⟩
    | none => rw [hf] at h; exact ih h

/-- Soundness of the slash-then-group step. -/
theorem slashThenGroup_sound {t : List Char} {j : Nat} {g : List Char}
    (h : slashThenGroup t j = some g) : g.length = 11 ∧ g.all idChar = true := by
  unfold slashThenGroup at h
  split at h
  · exact group11_sound h
  · exact absurd h (by simp)

/-- Soundness of the dot-plus-slash-group step. -/
theorem dotPlusSlashGroup_sound {t : List Char} {g : List Char}
    (h : dotPlusSlashGroup t = some g) : g.length = 11 ∧ g.all idChar = true := by
  unfold dotPlusSlashGroup at h
  obtain ⟨j, hj⟩ := firstSome_sound h
  exact slashThenGroup_sound hj

/-- Soundness of the first inner alternative. -/
theorem tryPathForm_sound {l g : List Char} (h : tryPathForm l = some g) :
    g.length = 11 ∧ g.all idChar = true := by
  simp only [tryPathForm] at h
  split at h
  · exact absurd h (by simp)
  · split at h
    · exact dotPlusSlashGroup_sound h
    · exact absurd h (by simp)

/-- Soundness of the second inner alternative. -/
theorem tryVEmbedForm_sound {l g : List Char} (h : tryVEmbedForm l = some g) :
    g.length = 11 ∧ g.all idChar = true := by
  unfold tryVEmbedForm at h
  rcases orElse_eq_some_cases h with h1 | h2
  · exact bind_group11_sound h1
  · rcases orElse_eq_some_cases h2 with h3 | h4
    · exact bind_group11_sound h3
    · exact bind_group11_sound h4

/-- Soundness of the query-parameter step. -/
theorem qvEqThenGroup_sound {t : List Char} {j : Nat} {g : List Char}
    (h : qvEqThenGroup t j = some g) : g.length = 11 ∧ g.all idChar = true := by
  unfold qvEqThenGroup at h
  split at h
  · split at h
    · exact group11_sound h
    · exact absurd h (by simp)
  · exact absurd h (by simp)

/-- Soundness of the third inner alternative. -/
theorem tryQueryForm_sound {l g : List Char} (h : tryQueryForm l = some g) :
    g.length = 11 ∧ g.all idChar = true := by
  unfold tryQueryForm at h
  obtain ⟨j, hj⟩ := firstSome_sound h
  exact qvEqThenGroup_sound hj

/-- Soundness of one anchored match attempt. -/
theorem matchAt_sound {l g : List Char} (h : matchAt l = some g) :
    g.length = 11 ∧ g.all idChar = true := by
  unfold matchAt at h
  rcases orElse_eq_some_cases h with h1 | h2
  · obtain ⟨rest, _, hF⟩ := Option.bind_eq_some.mp h1
    rcases orElse_eq_some_cases hF with ha | hbc
    · exact tryPathForm_sound ha
    · rcases orElse_eq_some_cases hbc with hb | hc
      · exact tryVEmbedForm_sound hb
      · exact tryQueryForm_sound hc
  · exact bind_group11_sound h2

/-- Soundness of the leftmost-match scan. -/
theorem scanChars_sound {l g : List Char} (h : scanChars l = some g) :
    g.length = 11 ∧ g.all idChar = true := by
  induction l with
  | nil => simp [scanChars] at h
  | cons c rest ih =>
    unfold scanChars at h
    cases hm : matchAt (c :: rest) with
    | some x => rw [hm] at h; exact matchAt_sound (by rw [hm]; exact h)
    | none => rw [hm] at h; exact ih h

/-- C5 counterexample: the claim forbids partial matches, but on a URL whose
token segment is twelve id-class characters extractVideoId returns its first
eleven characters, a truncated token. -/
theorem extractVideoId_truncation_cx :
    extractVideoId "https://youtu.be/abcdefghijkl" = some "abcdefghijk" ∧
    "abcdefghijkl".data.all idChar = true ∧
    ("abcdefghijkl" : String).length = 12 ∧
    "abcdefghijk" ≠ "abcdefghijkl" ∧
    startsWithStr "abcdefghijkl" "abcdefghijk" = true := by
  decide

/-- C5 (amended): extractVideoId never throws and either returns none or a
token of exactly eleven characters of the accepted class; however it does
partially match: a token segment longer than eleven class characters yields
its first eleven characters, as on youtu.be/abcdefghijkl. -/
theorem extractVideoId_len11_amended :
    (∀ (url t : String), extractVideoId url = some t →
      t.length = 11 ∧ t.data.all idChar = true) ∧
    extractVideoId "https://youtu.be/abcdefghijkl" = some "abcdefghijk" := by
  constructor
  · intro url t h
    unfold extractVideoId at h
    cases hs : scanChars url.data with
    | none => rw [hs] at h; simp at h
    | some g =>
      rw [hs] at h
      simp only [Option.map_some'] at h
      injection h with h
      obtain ⟨hlen, hall⟩ := scanChars_sound hs
      subst h
      exact ⟨hlen, hall⟩
  · decide

/-- Witness for the amended C5 theorem at a canonical watch URL. -/
theorem extractVideoId_len11_amended_witness :
    ("dQw4w9WgXcQ" : String).length = 11 ∧
    ("dQw4w9WgXcQ" : String).data.all idChar = true :=
  extractVideoId_len11_amended.1 "https://www.youtube.com/watch?v=dQw4w9WgXcQ"
    "dQw4w9WgXcQ" (by decide)

/-- C1: in every orchestrator run the invoked strategies form an increasing
subsequence of 1..5, and the run short-circuits on first success: an invoked
strategy whose result is true bounds every invoked strategy index, so no
later strategy is ever invoked after a success. -/
theorem runChain_ordered_short_circuit :
    ∀ (c y b1 b2 b3 b4 b5 : Bool),
      List.Pairwise (fun i j => i < j) (runChain c y b1 b2 b3 b4 b5).2 ∧
      (∀ k ∈ (runChain c y b1 b2 b3 b4 b5).2, 1 ≤ k ∧ k ≤ 5) ∧
      (∀ k ∈ (runChain c y b1 b2 b3 b4 b5).2,
        stratResult b1 b2 b3 b4 b5 k = true →
          ∀ j ∈ (runChain c y b1 b2 b3 b4 b5).2, j ≤ k) := by
  intro c y b1 b2 b3 b4 b5
  cases c <;> cases y <;> cases b1 <;> cases b2 <;> cases b3 <;> cases b4 <;>
    cases b5 <;> decide

/-- Witness for C1: with strategy 2 succeeding after strategy 1 failed, every
invoked strategy index is at most 2. -/
theorem runChain_ordered_short_circuit_witness : (1 : Nat) ≤ 2 :=
  (runChain_ordered_short_circuit true true false true true true true).2.2 2
    (by decide) (by decide) 1 (by decide)

/-- C3: with no cookies file, strategy 1 resolves false at once without
spawning a subprocess; the orchestrator never invokes strategy 1, does invoke
strategy 2, and both the final result and the invocation list agree with a
run in which strategy 1 was available and reported failure. -/
theorem noCookies_skip_strategy1 :
    ∀ (y b1 b2 b3 b4 b5 : Bool) (o : YtDlpOutcome),
      downloadWithYtDlpCookies false o = (false, false) ∧
      ((runChain false y b1 b2 b3 b4 b5).2.contains 1) = false ∧
      ((runChain false y b1 b2 b3 b4 b5).2.contains 2) = true ∧
      (runChain false y b1 b2 b3 b4 b5).1 =
        (runChain true true false b2 b3 b4 b5).1 ∧
      (runChain false y b1 b2 b3 b4 b5).2 =
        ((runChain true true false b2 b3 b4 b5).2).filter (fun j => j != 1) := by
  intro y b1 b2 b3 b4 b5 o
  refine ⟨rfl, ?_⟩
  cases y <;> cases b1 <;> cases b2 <;> cases b3 <;> cases b4 <;> cases b5 <;>
    decide

/-- C2 counterexample: strategy 2 resolves true when the stream ended and the
output file exists even with size zero, and strategy 3 resolves true on the
writer finish event with zero bytes streamed; a zero-byte output is not
treated as failure by the own check of these strategies. -/
theorem strategy_zero_byte_success_cx :
    downloadWithEnhancedYtdl ⟨false, true, 0⟩ = true ∧
    downloadWithProxyFetch ⟨true, true, false, 0⟩ = true := by
  decide

/-- C2 (amended): strategies 1, 4 and 5 return true only if the file they
checked exists with non-zero size; strategy 2 returns true only if the output
file exists, without any size check, and strategy 3 returns true whenever
info, format selection and the writer raised no error, without any file
check. -/
theorem strategy_verification_amended :
    ∀ (o1 : YtDlpOutcome) (o2 : YtdlStreamOutcome) (o3 : ProxyFetchOutcome)
      (o4 : EmbedOutcome) (o5 : AudioOutcome) (c : Bool) (p : String),
      ((downloadWithYtDlpCookies c o1).1 = true →
        o1.outExists = true ∧ 0 < o1.outSize) ∧
      (downloadWithEmbedURL o4 = true → 0 < o4.outSize) ∧
      ((downloadAsAudioOnly p o5).1 = true →
        o5.audioExists = true ∧ 0 < o5.audioSize) ∧
      (downloadWithEnhancedYtdl o2 = true → o2.outExists = true) ∧
      (downloadWithProxyFetch o3 = true →
        o3.infoOk = true ∧ o3.formatOk = true ∧ o3.writerErrored = false) := by
  intro o1 o2 o3 o4 o5 c p
  refine ⟨?_, ?_, ?_, ?_, ?_⟩
  · intro h
    cases c
    · simp [downloadWithYtDlpCookies] at h
    · simp only [downloadWithYtDlpCookies, Bool.not_true, Bool.false_eq_true,
        if_false, Bool.and_eq_true, decide_eq_true_eq] at h
      exact ⟨h.1.2, h.2⟩
  · intro h
    unfold downloadWithEmbedURL at h
    split at h
    · exact absurd h (by simp)
    · split at h
      · exact absurd h (by simp)
      · exact of_decide_eq_true h
  · intro h
    simp only [downloadAsAudioOnly] at h
    split at h
    · simp at h
    · split at h
      · simp at h
      · split at h
        · simp at h
        · rename_i h2 h3
          exact ⟨by simpa using h2, Nat.pos_of_ne_zero (by simpa using h3)⟩
  · intro h
    unfold downloadWithEnhancedYtdl at h
    split at h
    · exact absurd h (by simp)
    · exact h
  · intro h
    unfold downloadWithProxyFetch at h
    split at h
    · exact absurd h (by simp)
    · split at h
      · exact absurd h (by simp)
      · split at h
        · exact absurd h (by simp)
        · rename_i h1 h2 h3
          exact ⟨by simpa using h1, by simpa using h2, by simpa using h3⟩

/-- Witness for the amended C2 theorem: a successful strategy-1 run implies
its output file exists with positive size. -/
theorem strategy_verification_amended_witness :
    (⟨some 0, true, 3⟩ : YtDlpOutcome).outExists = true ∧
    0 < (⟨some 0, true, 3⟩ : YtDlpOutcome).outSize :=
  (strategy_verification_amended ⟨some 0, true, 3⟩ ⟨false, true, 1⟩
    ⟨true, true, false, 1⟩ ⟨true, false, 1⟩ ⟨false, true, 1⟩ true "p").1
    (by decide)

/-- C6: a directory listing made of one normal .mp4 artifact, one ERROR-
marker and one NOTE- marker yields successCount 1, errorCount 1 and
audioOnlyCount 1, and the stats are a pure function of the listing, invariant
under its order. -/
theorem statusStats_one_each :
    ∀ (l : List String) (a e n : String),
      l.Perm [a, e, n] →
      endsWithStr a ".mp4" = true → endsWithStr a ".mp3" = false →
      startsWithStr a "ERROR-" = false → startsWithStr a "NOTE-" = false →
      startsWithStr e "ERROR-" = true → startsWithStr e "NOTE-" = false →
      endsWithStr e ".mp3" = false →
      startsWithStr n "NOTE-" = true → startsWithStr n "ERROR-" = false →
      statusStats l = ⟨1, 1, 1⟩ ∧ totalFiles l = 3 := by
  intro l a e n hp ha1 ha2 ha3 ha4 he1 he2 he3 hn1 hn2
  have hsa : isSuccessFile a = true := by
    simp [isSuccessFile, isErrorFile, isNoteFile, ha1, ha3, ha4]
  have hse : isSuccessFile e = false := by
    simp [isSuccessFile, isErrorFile, he1]
  have hsn : isSuccessFile n = false := by
    simp [isSuccessFile, isNoteFile, hn1]
  have hea : isErrorFile a = false := by simp [isErrorFile, ha3]
  have hee : isErrorFile e = true := by simp [isErrorFile, he1]
  have hen : isErrorFile n = false := by simp [isErrorFile, hn2]
  have haa : isAudioOnlyFile a = false := by
    simp [isAudioOnlyFile, isNoteFile, ha2, ha4]
  have hae : isAudioOnlyFile e = false := by
    simp [isAudioOnlyFile, isNoteFile, he2, he3]
  have han : isAudioOnlyFile n = true := by simp [isAudioOnlyFile, isNoteFile, hn1]
  refine ⟨?_, by simpa [totalFiles] using hp.length_eq⟩
  have h1 : l.countP isSuccessFile = 1 := by
    rw [hp.countP_eq]
    simp [List.countP_cons, hsa, hse, hsn]
  have h2 : l.countP isErrorFile = 1 := by
    rw [hp.countP_eq]
    simp [List.countP_cons, hea, hee, hen]
  have h3 : l.countP isAudioOnlyFile = 1 := by
    rw [hp.countP_eq]
    simp [List.countP_cons, haa, hae, han]
  simp [statusStats, h1, h2, h3]

/-- Witness for C6 on a concrete scrambled listing. -/
theorem statusStats_one_each_witness :
    statusStats ["ERROR-Test_Video-dQw4w9WgXcQ.txt", "NOTE-Test_Video-dQw4w9WgXcQ.txt",
      "Test_Video-dQw4w9WgXcQ.mp4"] = ⟨1, 1, 1⟩ ∧
    totalFiles ["ERROR-Test_Video-dQw4w9WgXcQ.txt", "NOTE-Test_Video-dQw4w9WgXcQ.txt",
      "Test_Video-dQw4w9WgXcQ.mp4"] = 3 :=
  statusStats_one_each
    ["ERROR-Test_Video-dQw4w9WgXcQ.txt", "NOTE-Test_Video-dQw4w9WgXcQ.txt",
      "Test_Video-dQw4w9WgXcQ.mp4"]
    "Test_Video-dQw4w9WgXcQ.mp4" "ERROR-Test_Video-dQw4w9WgXcQ.txt"
    "NOTE-Test_Video-dQw4w9WgXcQ.txt"
    (by decide) (by decide) (by decide) (by decide) (by decide) (by decide)
    (by decide) (by decide) (by decide) (by decide)

/-- C10: every .mp3 file name that is not a marker is counted by both the
success and the audio-only counters, so the three counters do not partition
the listing and their sum can exceed the file count. -/
theorem mp3_double_counted :
    ∀ (f : String) (l : List String),
      endsWithStr f ".mp3" = true → startsWithStr f "ERROR-" = false →
      startsWithStr f "NOTE-" = false →
      ((statusStats (f :: l)).successCount = (statusStats l).successCount + 1 ∧
       (statusStats (f :: l)).audioOnlyCount = (statusStats l).audioOnlyCount + 1) ∧
      (statusStats [f]).successCount + (statusStats [f]).errorCount +
        (statusStats [f]).audioOnlyCount > totalFiles [f] := by
  intro f l h1 h2 h3
  have hs : isSuccessFile f = true := by
    simp [isSuccessFile, isErrorFile, isNoteFile, h1, h2, h3]
  have ha : isAudioOnlyFile f = true := by simp [isAudioOnlyFile, h1]
  have he : isErrorFile f = false := by simp [isErrorFile, h2]
  refine ⟨⟨?_, ?_⟩, ?_⟩
  · simp [statusStats, List.countP_cons, hs]
  · simp [statusStats, List.countP_cons, ha]
  · simp [statusStats, totalFiles, List.countP_cons, List.countP_nil, hs, ha, he]

/-- Witness for C10 with a single plain .mp3 file. -/
theorem mp3_double_counted_witness :
    ((statusStats ["song.mp3"]).successCount = (statusStats []).successCount + 1 ∧
     (statusStats ["song.mp3"]).audioOnlyCount = (statusStats []).audioOnlyCount + 1) ∧
    (statusStats ["song.mp3"]).successCount + (statusStats ["song.mp3"]).errorCount +
      (statusStats ["song.mp3"]).audioOnlyCount > totalFiles ["song.mp3"] :=
  mp3_double_counted "song.mp3" [] (by decide) (by decide) (by decide)

/-- A word-class character is never whitespace. -/
theorem wordChar_not_ws (c : Char) (h : wordChar c = true) :
    jsWhitespace c = false := by
  simp only [wordChar, Bool.or_eq_true, decide_eq_true_eq] at h
  cases hb : jsWhitespace c
  · rfl
  · exfalso
    simp only [jsWhitespace, Bool.or_eq_true, decide_eq_true_eq] at hb
    omega

/-- Every character produced by the whitespace-collapsing pass is either the
underscore it inserts or a non-whitespace character of the input. -/
theorem collapseWs_mem (l : List Char) :
    (∀ c ∈ collapseWs l, c = '_' ∨ (c ∈ l ∧ jsWhitespace c = false)) ∧
    (∀ c ∈ skipWs l, c = '_' ∨ (c ∈ l ∧ jsWhitespace c = false)) := by
  induction l with
  | nil => constructor <;> intro c hc <;> simp [collapseWs, skipWs] at hc
  | cons a rest ih =>
    constructor
    · intro c hc
      simp only [collapseWs] at hc
      split at hc
      · rcases List.mem_cons.mp hc with rfl | hc2
        · exact Or.inl rfl
        · rcases ih.2 c hc2 with hu | ⟨hmem, hnw⟩
          · exact Or.inl hu
          · exact Or.inr ⟨List.mem_cons_of_mem _ hmem, hnw⟩
      · rename_i hna
        rcases List.mem_cons.mp hc with rfl | hc2
        · exact Or.inr ⟨List.mem_cons_self _ _, by simpa using hna⟩
        · rcases ih.1 c hc2 with hu | ⟨hmem, hnw⟩
          · exact Or.inl hu
          · exact Or.inr ⟨List.mem_cons_of_mem _ hmem, hnw⟩
    · intro c hc
      simp only [skipWs] at hc
      split at hc
      · rcases ih.2 c hc with hu | ⟨hmem, hnw⟩
        · exact Or.inl hu
        · exact Or.inr ⟨List.mem_cons_of_mem _ hmem, hnw⟩
      · rename_i hna
        rcases List.mem_cons.mp hc with rfl | hc2
        · exact Or.inr ⟨List.mem_cons_self _ _, by simpa using hna⟩
        · rcases ih.1 c hc2 with hu | ⟨hmem, hnw⟩
          · exact Or.inl hu
          · exact Or.inr ⟨List.mem_cons_of_mem _ hmem, hnw⟩

/-- The whitespace-collapsing pass fixes a list without whitespace. -/
theorem collapseWs_no_ws :
    ∀ l : List Char, (∀ c ∈ l, jsWhitespace c = false) → collapseWs l = l := by
  intro l
  induction l with
  | nil => intro _; rfl
  | cons a rest ih =>
    intro h
    simp only [collapseWs]
    rw [if_neg (by simp [h a (List.mem_cons_self _ _)])]
    rw [ih (fun c hc => h c (List.mem_cons_of_mem _ hc))]

/-- C9: the sanitizer is a pure function that strips non-word non-whitespace
characters, collapses whitespace runs to single underscores, and the stem
appends the identifier; re-applying the stripping-and-collapsing step to its
own title output returns that output unchanged. -/
theorem sanitizeTitle_idempotent :
    ∀ (title vid : String),
      sanitizeTitle (sanitizeTitle title) = sanitizeTitle title ∧
      safeStem title vid = sanitizeTitle title ++ "-" ++ vid ∧
      sanitizeTitle title = ⟨collapseWs (stripSpecial title.data)⟩ := by
  intro title vid
  refine ⟨?_, rfl, rfl⟩
  have hword : ∀ c ∈ collapseWs (stripSpecial title.data), wordChar c = true := by
    intro c hc
    rcases (collapseWs_mem (stripSpecial title.data)).1 c hc with rfl | ⟨hmem, hnw⟩
    · decide
    · have hf := List.mem_filter.mp hmem
      have hf2 : wordChar c = true ∨ jsWhitespace c = true := by
        simpa [Bool.or_eq_true] using hf.2
      rcases hf2 with hw | hwls
      · exact hw
      · rw [hnw] at hwls
        exact absurd hwls (by simp)
  have hfilter : stripSpecial (collapseWs (stripSpecial title.data)) =
      collapseWs (stripSpecial title.data) := by
    unfold stripSpecial
    rw [List.filter_eq_self]
    intro c hc
    rw [hword c hc]
    rfl
  show sanitizeTitle ⟨collapseWs (stripSpecial title.data)⟩ = _
  unfold sanitizeTitle
  congr 1
  show collapseWs (stripSpecial (collapseWs (stripSpecial title.data))) = _
  rw [hfilter]
  exact collapseWs_no_ws _ (fun c hc => wordChar_not_ws c (hword c hc))

/-- C7: the response code of the download-submit endpoint agrees with the
case table of the specification; a response is the background-starting 202
exactly when it is the accepted response; and in the accepted case the body
carries the video details, the download url and the cookie and yt-dlp flags.
The unparseable-url example yields 400 with the Invalid YouTube URL error. -/
theorem handleDownload_case_analysis :
    (∀ e : RequestEnv, statusCode (handleDownload e) = specResponseCode e) ∧
    (∀ e : RequestEnv,
      (startsBackground (handleDownload e) = true ↔
        statusCode (handleDownload e) = 202)) ∧
    (∀ (e : RequestEnv) (u vid : String) (md : VideoMeta),
      e.url = some u → u ≠ "" → extractVideoId u = some vid →
      e.apiKeyConfigured = true → e.metadata = some md →
      e.outputFileExists = false →
      handleDownload e = .accepted vid md.title md.channel
        ("/downloads/" ++ outputFileName md.title vid) e.hasCookies e.hasYtDlp) ∧
    errorBody (handleDownload ⟨some "not-a-url", true, some ⟨"T", "C", "0"⟩,
      false, false, false⟩) = some "Invalid YouTube URL" ∧
    statusCode (handleDownload ⟨some "not-a-url", true, some ⟨"T", "C", "0"⟩,
      false, false, false⟩) = 400 := by
  refine ⟨?_, ?_, ?_, by decide, by decide⟩
  · intro e
    rcases e with ⟨url, api, md, fex, hc, hy⟩
    cases url with
    | none => rfl
    | some u =>
      by_cases hu : u = ""
      · simp [handleDownload, specResponseCode, hu, statusCode]
      · cases hvid : extractVideoId u with
        | none => simp [handleDownload, specResponseCode, hu, hvid, statusCode]
        | some vid =>
          cases api <;> cases md <;> cases fex <;>
            simp [handleDownload, specResponseCode, hu, hvid, statusCode]
  · intro e
    cases hh : handleDownload e <;> simp [startsBackground, statusCode]
  · intro e u vid md h1 h2 h3 h4 h5 h6
    rcases e with ⟨url, api, mdv, fex, hc, hy⟩
    simp only at h1 h4 h5 h6
    subst h1
    subst h4
    subst h5
    subst h6
    simp [handleDownload, h2, h3]

/-- Witness for C7 reproducing the end-to-end example: a valid watch URL with
metadata Test Video / Test Channel is accepted with the expected download
url. -/
theorem handleDownload_case_analysis_witness :
    handleDownload ⟨some "https://youtu.be/dQw4w9WgXcQ", true,
      some ⟨"Test Video", "Test Channel", "42"⟩, false, true, false⟩ =
      .accepted "dQw4w9WgXcQ" "Test Video" "Test Channel"
        ("/downloads/" ++ outputFileName "Test Video" "dQw4w9WgXcQ") true false :=
  handleDownload_case_analysis.2.2.1
    ⟨some "https://youtu.be/dQw4w9WgXcQ", true,
      some ⟨"Test Video", "Test Channel", "42"⟩, false, true, false⟩
    "https://youtu.be/dQw4w9WgXcQ" "dQw4w9WgXcQ" ⟨"Test Video", "Test Channel", "42"⟩
    rfl (by decide) (by decide) rfl rfl rfl

/-- Success flag of the chain as a disjunction, with strategy 1 gated by the
cookie and yt-dlp availability. -/
theorem runChain_success_eq (c y b1 b2 b3 b4 b5 : Bool) :
    (runChain c y b1 b2 b3 b4 b5).1 = ((c && y && b1) || b2 || b3 || b4 || b5) := by
  cases c <;> cases y <;> cases b1 <;> cases b2 <;> cases b3 <;> cases b4 <;>
    cases b5 <;> rfl

/-- An infix witness for string decompositions. -/
theorem str_infix_decomp (a x b s : String) (h : s = a ++ x ++ b) :
    x.data <:+: s.data := by
  subst h
  rw [String.data_append, String.data_append]
  exact List.infix_append _ _ _

/-- The error marker content contains the url, the id, the title, the channel
and the fixed remediation suggestions. -/
theorem errorContent_contains (title channel vid url ts : String) :
    url.data <:+: (errorContent title channel vid url ts).data ∧
    vid.data <:+: (errorContent title channel vid url ts).data ∧
    title.data <:+: (errorContent title channel vid url ts).data ∧
    channel.data <:+: (errorContent title channel vid url ts).data ∧
    errorSuggestions.data <:+: (errorContent title channel vid url ts).data := by
  refine ⟨?_, ?_, ?_, ?_, ?_⟩
  · exact str_infix_decomp
      ("Download failed: All methods were unsuccessful. \nYouTube may be blocking server access.\n\nVideo Information:\n- Title: " ++
        title ++ "\n- Channel: " ++ channel ++ "\n- Video ID: " ++ vid ++ "\n- URL: ")
      url
      ("\n- Attempted on: " ++ ts ++
        "\n\nThings to try:\n1. Export fresh cookies from a different browser\n2. Use a VPN or different network\n3. Download the video locally and upload it to the server\n4. Check for alternative sources like British Pathé\u0027s website")
      _ (by simp [errorContent, String.append_assoc])
  · exact str_infix_decomp
      ("Download failed: All methods were unsuccessful. \nYouTube may be blocking server access.\n\nVideo Information:\n- Title: " ++
        title ++ "\n- Channel: " ++ channel ++ "\n- Video ID: ")
      vid
      ("\n- URL: " ++ url ++ "\n- Attempted on: " ++ ts ++
        "\n\nThings to try:\n1. Export fresh cookies from a different browser\n2. Use a VPN or different network\n3. Download the video locally and upload it to the server\n4. Check for alternative sources like British Pathé\u0027s website")
      _ (by simp [errorContent, String.append_assoc])
  · exact str_infix_decomp
      "Download failed: All methods were unsuccessful. \nYouTube may be blocking server access.\n\nVideo Information:\n- Title: "
      title
      ("\n- Channel: " ++ channel ++ "\n- Video ID: " ++ vid ++ "\n- URL: " ++ url ++
        "\n- Attempted on: " ++ ts ++
        "\n\nThings to try:\n1. Export fresh cookies from a different browser\n2. Use a VPN or different network\n3. Download the video locally and upload it to the server\n4. Check for alternative sources like British Pathé\u0027s website")
      _ (by simp [errorContent, String.append_assoc])
  · exact str_infix_decomp
      ("Download failed: All methods were unsuccessful. \nYouTube may be blocking server access.\n\nVideo Information:\n- Title: " ++
        title ++ "\n- Channel: ")
      channel
      ("\n- Video ID: " ++ vid ++ "\n- URL: " ++ url ++ "\n- Attempted on: " ++ ts ++
        "\n\nThings to try:\n1. Export fresh cookies from a different browser\n2. Use a VPN or different network\n3. Download the video locally and upload it to the server\n4. Check for alternative sources like British Pathé\u0027s website")
      _ (by simp [errorContent, String.append_assoc])
  · exact str_infix_decomp
      ("Download failed: All methods were unsuccessful. \nYouTube may be blocking server access.\n\nVideo Information:\n- Title: " ++
        title ++ "\n- Channel: " ++ channel ++ "\n- Video ID: " ++ vid ++ "\n- URL: " ++
        url ++ "\n- Attempted on: " ++ ts ++ "\n\n")
      errorSuggestions
      ""
      _ (by
        have hS : ("\n\nThings to try:\n1. Export fresh cookies from a different browser\n2. Use a VPN or different network\n3. Download the video locally and upload it to the server\n4. Check for alternative sources like British Pathé\u0027s website" : String) =
            "\n\n" ++ errorSuggestions ++ "" := by decide
        simp only [errorContent]
        rw [hS]
        simp [String.append_assoc])

/-- C4: under the environment assumption that the subprocess strategy cannot
succeed when yt-dlp is not installed, the background block writes exactly the
error marker file, with its fixed name and a content containing the url, id,
title, channel and the remediation suggestions, precisely when all five
strategies reported failure; and no HTTP response carries the failure, since
the response that starts a background run is always 202. -/
theorem errorMarker_iff_all_failed :
    ∀ (c y : Bool) (os : Outcomes) (op st vid url title channel ts : String),
      (y = false → (downloadWithYtDlpCookies c os.o1).1 = false) →
      ((errorMarkerWrites c y op st vid url title channel ts os =
          [(DOWNLOAD_DIR ++ "/" ++ errorFileName st vid,
            errorContent title channel vid url ts)]) ↔
        ((downloadWithYtDlpCookies c os.o1).1 = false ∧
          downloadWithEnhancedYtdl os.o2 = false ∧
          downloadWithProxyFetch os.o3 = false ∧
          downloadWithEmbedURL os.o4 = false ∧
          (downloadAsAudioOnly op os.o5).1 = false)) ∧
      ((errorMarkerWrites c y op st vid url title channel ts os = []) ↔
        ((downloadWithYtDlpCookies c os.o1).1 = true ∨
          downloadWithEnhancedYtdl os.o2 = true ∨
          downloadWithProxyFetch os.o3 = true ∨
          downloadWithEmbedURL os.o4 = true ∨
          (downloadAsAudioOnly op os.o5).1 = true)) ∧
      (url.data <:+: (errorContent title channel vid url ts).data ∧
        vid.data <:+: (errorContent title channel vid url ts).data ∧
        title.data <:+: (errorContent title channel vid url ts).data ∧
        channel.data <:+: (errorContent title channel vid url ts).data ∧
        errorSuggestions.data <:+: (errorContent title channel vid url ts).data) ∧
      (∀ e : RequestEnv, startsBackground (handleDownload e) = true →
        statusCode (handleDownload e) = 202) := by
  intro c y os op st vid url title channel ts h
  have hgate : (c && y && (downloadWithYtDlpCookies c os.o1).1) =
      (downloadWithYtDlpCookies c os.o1).1 := by
    cases hc : c
    · simp [downloadWithYtDlpCookies]
    · rw [hc] at h
      cases hy : y
      · simp [h hy]
      · simp
  have hsucc : (runOrchestrator c y op os).1 =
      ((downloadWithYtDlpCookies c os.o1).1 || downloadWithEnhancedYtdl os.o2 ||
        downloadWithProxyFetch os.o3 || downloadWithEmbedURL os.o4 ||
        (downloadAsAudioOnly op os.o5).1) := by
    unfold runOrchestrator
    rw [runChain_success_eq, hgate]
  refine ⟨?_, ?_, errorContent_contains title channel vid url ts, ?_⟩
  · unfold errorMarkerWrites
    rw [hsucc]
    cases h1 : (downloadWithYtDlpCookies c os.o1).1 <;>
      cases h2 : downloadWithEnhancedYtdl os.o2 <;>
      cases h3 : downloadWithProxyFetch os.o3 <;>
      cases h4 : downloadWithEmbedURL os.o4 <;>
      cases h5 : (downloadAsAudioOnly op os.o5).1 <;> simp
  · unfold errorMarkerWrites
    rw [hsucc]
    cases h1 : (downloadWithYtDlpCookies c os.o1).1 <;>
      cases h2 : downloadWithEnhancedYtdl os.o2 <;>
      cases h3 : downloadWithProxyFetch os.o3 <;>
      cases h4 : downloadWithEmbedURL os.o4 <;>
      cases h5 : (downloadAsAudioOnly op os.o5).1 <;> simp
  · intro e hsb
    cases hh : handleDownload e <;> simp_all [startsBackground, statusCode]

/-- Witness for C4: a run where every strategy fails writes exactly the error
marker with the expected name and content. -/
theorem errorMarker_iff_all_failed_witness :
    errorMarkerWrites true true "downloads/Test_Video-dQw4w9WgXcQ.mp4"
      "Test_Video" "dQw4w9WgXcQ" "https://youtu.be/dQw4w9WgXcQ" "Test Video"
      "Test Channel" "2025-01-01T00:00:00.000Z"
      ⟨⟨some 1, false, 0⟩, ⟨true, false, 0⟩, ⟨false, true, false, 0⟩,
        ⟨false, true, 0⟩, ⟨true, false, 0⟩⟩ =
      [(DOWNLOAD_DIR ++ "/" ++ errorFileName "Test_Video" "dQw4w9WgXcQ",
        errorContent "Test Video" "Test Channel" "dQw4w9WgXcQ"
          "https://youtu.be/dQw4w9WgXcQ" "2025-01-01T00:00:00.000Z")] :=
  (errorMarker_iff_all_failed true true
    ⟨⟨some 1, false, 0⟩, ⟨true, false, 0⟩, ⟨false, true, false, 0⟩,
      ⟨false, true, 0⟩, ⟨true, false, 0⟩⟩
    "downloads/Test_Video-dQw4w9WgXcQ.mp4" "Test_Video" "dQw4w9WgXcQ"
    "https://youtu.be/dQw4w9WgXcQ" "Test Video" "Test Channel"
    "2025-01-01T00:00:00.000Z"
    (fun hy => absurd hy (by decide))).1.mpr (by decide)

/-- C8 counterexample: on success at the reachable output path
downloads/Test_Video-dQw4w9WgXcQ.mp4 the note marker written is
NOTE-Test_Video-dQw4w9WgXcQ.txt, which includes the identifier and so is not
NOTE-sanitized-title.txt; and at an output path built from the reachable
video id ab.mp4cdefg the audio path replaces the first .mp4 occurrence
inside the id rather than the extension. -/
theorem audioOnly_paths_cx :
    sanitizeTitle "Test Video" = "Test_Video" ∧
    (downloadAsAudioOnly "downloads/Test_Video-dQw4w9WgXcQ.mp4" ⟨false, true, 5⟩).2 =
      ["downloads/Test_Video-dQw4w9WgXcQ.mp3",
        "downloads/NOTE-Test_Video-dQw4w9WgXcQ.txt"] ∧
    "downloads/NOTE-Test_Video-dQw4w9WgXcQ.txt" ≠
      "downloads/NOTE-" ++ sanitizeTitle "Test Video" ++ ".txt" ∧
    extractVideoId "https://youtu.be/ab.mp4cdefg" = some "ab.mp4cdefg" ∧
    audioPathOf "downloads/T-ab.mp4cdefg.mp4" = "downloads/T-ab.mp3cdefg.mp4" ∧
    endsWithStr (audioPathOf "downloads/T-ab.mp4cdefg.mp4") ".mp3" = false := by
  decide

/-- Appending after an all-true block commutes with takeWhile. -/
theorem takeWhile_append_all {p : Char → Bool} (l1 l2 : List Char)
    (h : ∀ c ∈ l1, p c = true) :
    (l1 ++ l2).takeWhile p = l1 ++ l2.takeWhile p := by
  induction l1 with
  | nil => simp
  | cons a l ih =>
    rw [List.cons_append, List.takeWhile_cons_of_pos (h a (List.mem_cons_self _ _)),
      ih (fun c hc => h c (List.mem_cons_of_mem _ hc))]
    rfl

/-- The last path segment of pre/stem-ext, when stem and ext avoid slashes. -/
theorem basename_data (pre stem ext : List Char)
    (hstem : ∀ c ∈ stem, (c != '/') = true)
    (hext : ∀ c ∈ ext, (c != '/') = true) :
    ((pre ++ ('/' :: stem) ++ ext).reverse.takeWhile (fun c => c != '/')).reverse =
      stem ++ ext := by
  rw [List.reverse_append, List.reverse_append, List.reverse_cons]
  rw [takeWhile_append_all _ _ (fun c hc => hext c (List.mem_reverse.mp hc))]
  rw [List.append_assoc]
  rw [takeWhile_append_all _ _ (fun c hc => hstem c (List.mem_reverse.mp hc))]
  rw [show ((['/'] ++ pre.reverse).takeWhile (fun c => c != '/')) = [] from
    List.takeWhile_cons_of_neg (by decide)]
  simp

/-- A list is a Boolean-level initial segment of itself. -/
theorem isPrefixOf_self_true (l : List Char) : l.isPrefixOf l = true := by
  induction l with
  | nil => rfl
  | cons a t ih => simp [List.isPrefixOf, ih]

/-- A replace whose pattern occurs nowhere before the final position rewrites
exactly the appended pattern. -/
theorem listReplaceFirst_at_end (pat rep : List Char) (hne : pat ≠ []) :
    ∀ l : List Char,
      (∀ i, i < l.length → pat.isPrefixOf ((l ++ pat).drop i) = false) →
      listReplaceFirst pat rep (l ++ pat) = l ++ rep := by
  intro l
  induction l with
  | nil =>
    intro _
    simp only [List.nil_append]
    cases pat with
    | nil => exact absurd rfl hne
    | cons p ps =>
      rw [listReplaceFirst, if_pos (isPrefixOf_self_true (p :: ps))]
      simp [List.drop_length]
  | cons a l ih =>
    intro hocc
    have h0 : pat.isPrefixOf (a :: (l ++ pat)) = false := by
      have hp := hocc 0 (by simp)
      simpa using hp
    rw [List.cons_append, listReplaceFirst, if_neg (by simp [h0])]
    rw [ih (fun i hi => by
      have hp := hocc (i + 1) (by simp; omega)
      simpa using hp)]
    rfl

/-- basenameDrop on downloads/stem.mp4 with a slash-free non-empty stem
returns the stem. -/
theorem basenameDrop_stem (stem : String)
    (hns : ∀ c ∈ stem.data, (c != '/') = true)
    (hne : stem.data ≠ []) :
    basenameDrop (DOWNLOAD_DIR ++ "/" ++ stem ++ ".mp4") ".mp4" = stem := by
  have hdata : (DOWNLOAD_DIR ++ "/" ++ stem ++ ".mp4").data =
      "downloads".data ++ ('/' :: stem.data) ++ ".mp4".data := by
    simp [DOWNLOAD_DIR, String.data_append]
  have hb : ((DOWNLOAD_DIR ++ "/" ++ stem ++ ".mp4").data.reverse.takeWhile
      (fun c => c != '/')).reverse = stem.data ++ ".mp4".data := by
    rw [hdata]
    exact basename_data _ _ _ hns (by decide)
  simp only [basenameDrop]
  rw [hb]
  rw [if_pos ?hc]
  case hc =>
    refine ⟨List.isSuffixOf_iff_suffix.mpr ⟨stem.data, rfl⟩, ?_⟩
    intro heq
    have hlen := congrArg List.length heq
    rw [List.length_append] at hlen
    have hz : stem.data.length = 0 := by
      rw [show ((".mp4" : String).data.length) = 4 from rfl] at hlen
      omega
    exact hne (List.length_eq_zero.mp hz)
  have htake : (stem.data ++ (".mp4" : String).data).length -
      (".mp4" : String).data.length = stem.data.length := by
    rw [List.length_append]
    omega
  rw [htake, List.take_left]

/-- The audio sibling path substitutes the extension when .mp4 first occurs at
the extension position. -/
theorem audioPathOf_stem (stem : String)
    (hocc : ∀ i, i < (DOWNLOAD_DIR ++ "/" ++ stem).data.length →
      (".mp4" : String).data.isPrefixOf
        (((DOWNLOAD_DIR ++ "/" ++ stem).data ++ (".mp4" : String).data).drop i)
        = false) :
    audioPathOf (DOWNLOAD_DIR ++ "/" ++ stem ++ ".mp4") =
      DOWNLOAD_DIR ++ "/" ++ stem ++ ".mp3" := by
  apply String.ext
  show listReplaceFirst (".mp4" : String).data (".mp3" : String).data
      (DOWNLOAD_DIR ++ "/" ++ stem ++ ".mp4").data =
    (DOWNLOAD_DIR ++ "/" ++ stem ++ ".mp3").data
  rw [String.data_append, String.data_append]
  exact listReplaceFirst_at_end _ _ (by decide) _ hocc

/-- C8 (amended): when strategy 5 succeeds on an output path
downloads/stem.mp4 whose stem has no slash and no earlier .mp4 occurrence, it
has written the audio to downloads/stem.mp3 and the note marker to
downloads/NOTE-stem.txt, where the stem is the sanitized title with the
identifier appended, and it wrote nothing at the original output path. -/
theorem audioOnly_paths_amended :
    ∀ (stem : String) (o : AudioOutcome),
      (∀ c ∈ stem.data, (c != '/') = true) →
      stem.data ≠ [] →
      (∀ i, i < (DOWNLOAD_DIR ++ "/" ++ stem).data.length →
        (".mp4" : String).data.isPrefixOf
          (((DOWNLOAD_DIR ++ "/" ++ stem).data ++ (".mp4" : String).data).drop i)
          = false) →
      (downloadAsAudioOnly (DOWNLOAD_DIR ++ "/" ++ stem ++ ".mp4") o).1 = true →
      (downloadAsAudioOnly (DOWNLOAD_DIR ++ "/" ++ stem ++ ".mp4") o).2 =
        [DOWNLOAD_DIR ++ "/" ++ stem ++ ".mp3",
          DOWNLOAD_DIR ++ "/NOTE-" ++ stem ++ ".txt"] ∧
      (DOWNLOAD_DIR ++ "/" ++ stem ++ ".mp4") ∉
        (downloadAsAudioOnly (DOWNLOAD_DIR ++ "/" ++ stem ++ ".mp4") o).2 := by
  intro stem o hns hne hocc hs
  have h1 : o.writerErrored = false := by
    simp only [downloadAsAudioOnly] at hs
    split at hs
    · simp at hs
    · simpa using (by assumption : ¬(o.writerErrored = true))
  have h2 : o.audioExists = true := by
    simp only [downloadAsAudioOnly] at hs
    split at hs
    · simp at hs
    · split at hs
      · simp at hs
      · simpa using (by assumption : ¬((!o.audioExists) = true))
  have h3 : 0 < o.audioSize := by
    simp only [downloadAsAudioOnly] at hs
    split at hs
    · simp at hs
    · split at hs
      · simp at hs
      · split at hs
        · simp at hs
        · rename_i hz
          exact Nat.pos_of_ne_zero (by simpa using hz)
  have hwrites : (downloadAsAudioOnly (DOWNLOAD_DIR ++ "/" ++ stem ++ ".mp4") o).2 =
      [audioPathOf (DOWNLOAD_DIR ++ "/" ++ stem ++ ".mp4"),
        notePathOf (DOWNLOAD_DIR ++ "/" ++ stem ++ ".mp4")] := by
    simp [downloadAsAudioOnly, h1, h2, h3]
  have hap : audioPathOf (DOWNLOAD_DIR ++ "/" ++ stem ++ ".mp4") =
      DOWNLOAD_DIR ++ "/" ++ stem ++ ".mp3" := audioPathOf_stem stem hocc
  have hnp : notePathOf (DOWNLOAD_DIR ++ "/" ++ stem ++ ".mp4") =
      DOWNLOAD_DIR ++ "/NOTE-" ++ stem ++ ".txt" := by
    unfold notePathOf
    rw [basenameDrop_stem stem hns hne]
  have hne1 : (DOWNLOAD_DIR ++ "/" ++ stem ++ ".mp4") ≠
      (DOWNLOAD_DIR ++ "/" ++ stem ++ ".mp3") := by
    intro heq
    have hd := congrArg String.data heq
    rw [String.data_append, String.data_append] at hd
    have hc := List.append_cancel_left hd
    exact absurd hc (by decide)
  have hne2 : (DOWNLOAD_DIR ++ "/" ++ stem ++ ".mp4") ≠
      (DOWNLOAD_DIR ++ "/NOTE-" ++ stem ++ ".txt") := by
    intro heq
    have hd := congrArg (fun s : String => s.data.length) heq
    simp only [String.data_append, List.length_append] at hd
    rw [show (("/" : String).data.length) = 1 from rfl,
      show ((".mp4" : String).data.length) = 4 from rfl,
      show (("/NOTE-" : String).data.length) = 6 from rfl,
      show ((".txt" : String).data.length) = 4 from rfl] at hd
    omega
  rw [hwrites, hap, hnp]
  refine ⟨rfl, ?_⟩
  simp [hne1, hne2]

/-- Witness for the amended C8 theorem at the canonical stem. -/
theorem audioOnly_paths_amended_witness :
    (downloadAsAudioOnly (DOWNLOAD_DIR ++ "/" ++ "Test_Video-dQw4w9WgXcQ" ++ ".mp4")
        ⟨false, true, 5⟩).2 =
      [DOWNLOAD_DIR ++ "/" ++ "Test_Video-dQw4w9WgXcQ" ++ ".mp3",
        DOWNLOAD_DIR ++ "/NOTE-" ++ "Test_Video-dQw4w9WgXcQ" ++ ".txt"] ∧
    (DOWNLOAD_DIR ++ "/" ++ "Test_Video-dQw4w9WgXcQ" ++ ".mp4") ∉
      (downloadAsAudioOnly (DOWNLOAD_DIR ++ "/" ++ "Test_Video-dQw4w9WgXcQ" ++ ".mp4")
        ⟨false, true, 5⟩).2 :=
  audioOnly_paths_amended "Test_Video-dQw4w9WgXcQ" ⟨false, true, 5⟩
    (by decide) (by decide) (by decide) (by decide)
